import Mathlib

/-!
Shallow embedding of the Rate-Flux-Comparison-Engine (price comparison engine):
the Express API layer (scrape route, zod validation, Redis producer, product
read path, mongoose product model, startup) and the Python scraper worker
(strategy registry, normalizer, job processor, repository sink).

Components whose Python source files are not present in the repository
(registry.py, worker.py, the `_parse_price` helper, the repository sink) are
modelled from the specification and the repository README code blocks; each
such definition carries a doc comment that starts with `Modelled from the
spec:`.
-/

set_option autoImplicit false

/-- A JSON scalar as inspected by the zod schema of the scrape route: either a
string or some non-string JSON value (number, boolean, object, ...). -/
inductive JsonVal where
  | str (s : String)
  | other
  deriving DecidableEq

/-- The request body of `POST /api/scrape` as seen by `scrapeSchema` in
`src/api/src/routes/scrape.routes.ts`: the two fields the schema inspects,
`none` when the field is absent from the JSON object. -/
structure ReqBody where
  query : Option JsonVal
  retailer : Option JsonVal
  deriving DecidableEq

/-- Errors that reach the Express error middleware: a zod validation failure
or any other thrown error (`src/api/src/middleware/errorHandler.ts`). -/
inductive ApiError where
  | ZodError
  | other (msg : String)
  deriving DecidableEq

/-- An HTTP response, reduced to its status code. -/
structure HttpResult where
  status : Nat
  deriving DecidableEq

/-- `errorHandler` from `src/api/src/middleware/errorHandler.ts`: a ZodError
becomes a 400 validation-error response, anything else a 500. -/
def errorHandler (e : ApiError) : HttpResult :=
  match e with
  | ApiError.ZodError => { status := 400 }
  | ApiError.other _ => { status := 500 }

/-- `scrapeSchema.parse` from `src/api/src/routes/scrape.routes.ts`:
`query` must be a string of length 1 to 200 and `retailer` must be exactly
the string "amazon" or the string "flipkart"; any violation throws a
ZodError. -/
def scrapeSchemaParse (body : ReqBody) : Except ApiError (String × String) :=
  match body.query, body.retailer with
  | some (JsonVal.str q), some (JsonVal.str r) =>
      if 1 ≤ q.length then
        if q.length ≤ 200 then
          if r = "amazon" ∨ r = "flipkart" then Except.ok (q, r)
          else Except.error ApiError.ZodError
        else Except.error ApiError.ZodError
      else Except.error ApiError.ZodError
  | _, _ => Except.error ApiError.ZodError

/-- `enqueueScrapeJob` from `src/api/src/lib/redis.ts`, rendered as the list
of key/value fields of the JSON object handed to `lpush`. The function takes
only the query (its signature is `enqueueScrapeJob(query: string)`) and the
serialized payload is `\x7b query, createdAt \x7d`; no retailer field is ever
written. -/
def enqueueScrapeJobPayload (query : String) (now : String) : List (String × String) :=
  [("query", query), ("createdAt", now)]

/-- The `POST /api/scrape` handler from `src/api/src/routes/scrape.routes.ts`:
parse the body with the zod schema; on success call `enqueueScrapeJob` (the
route passes the parsed retailer as a second argument, but the function
accepts only the query, so the retailer is dropped) and answer 202; a thrown
ZodError goes through `next(err)` into `errorHandler`. Returns the response
together with the list of payloads pushed onto the `scrape:jobs` queue. -/
def handleScrape (body : ReqBody) (now : String) :
    HttpResult × List (List (String × String)) :=
  match scrapeSchemaParse body with
  | Except.ok (q, _r) => ({ status := 202 }, [enqueueScrapeJobPayload q now])
  | Except.error e => (errorHandler e, [])

/-- The validity condition stated by claim C5, written from the claim text
(to be compared with the behaviour of `handleScrape`): the body contains a
`query` string of length 1 to 200 and a `retailer` that is exactly
(case-sensitively) "amazon" or "flipkart". -/
def validScrapeBody (body : ReqBody) : Bool :=
  match body.query, body.retailer with
  | some (JsonVal.str q), some (JsonVal.str r) =>
      (1 ≤ q.length && q.length ≤ 200) && (r == "amazon" || r == "flipkart")
  | _, _ => false

/-! ## The persisted product model (mongoose `ProductSchema`) -/

/-- A candidate product document for the mongoose model of
`src/unnamed/part_005` (`models/product.model.ts`); each field is `none` when
missing or null. -/
structure ProductDoc where
  title : Option String
  price : Option ℚ
  source : Option String
  url : Option String
  image : Option String
  query : Option String
  deriving DecidableEq

/-- The field names of `ProductSchema` (with `timestamps: true`, which adds
`createdAt` and `updatedAt`). -/
def productSchemaFields : List String :=
  ["title", "price", "source", "url", "image", "query", "createdAt", "updatedAt"]

/-- Mongoose `required: true` validation of `ProductSchema`: `title`, `price`,
`source` and `url` must all be present and non-null for a save to succeed. -/
def validateProductDoc (d : ProductDoc) : Bool :=
  d.title.isSome && d.price.isSome && d.source.isSome && d.url.isSome

/-! ## The scraper worker: strategies, registry, normalizer -/

/-- The concrete scraper strategies registered by the worker: Amazon and
Flipkart (`Supported Retailers` in the scraper-engine README). -/
inductive Strategy where
  | amazon
  | flipkart
  deriving DecidableEq

/-- `retailer_name` of each strategy (`BaseScraper.retailer_name`). -/
def Strategy.retailer_name : Strategy → String
  | Strategy.amazon => "amazon"
  | Strategy.flipkart => "flipkart"

/-- Modelled from the spec: `STRATEGY_REGISTRY` of `strategies/registry.py`
(the file itself is not in the repository snapshot; the README of the
scraper engine gives the dictionary mapping retailer name to scraper
instance, with amazon and flipkart registered). -/
def STRATEGY_REGISTRY : List (String × Strategy) :=
  [("amazon", Strategy.amazon), ("flipkart", Strategy.flipkart)]

/-- The failure raised on an unknown retailer identifier. -/
inductive RegistryError where
  | UnsupportedRetailer (retailer : String)
  deriving DecidableEq

/-- Modelled from the spec: `get_strategy` of `strategies/registry.py` — an
exact, case-sensitive lookup in the fixed registry; an absent identifier
raises `Unsupported retailer`, a present one returns that single strategy
(never a default, never all strategies). -/
def get_strategy (retailer : String) : Except RegistryError Strategy :=
  match STRATEGY_REGISTRY.lookup retailer with
  | some s => Except.ok s
  | none => Except.error (RegistryError.UnsupportedRetailer retailer)

/-- A raw scraped record as consumed by `BaseScraper.normalize`: a dictionary
whose lookups `raw_data.get(...)` may each be absent. A `retailer` key models
any retailer-like value that might sit in the raw payload; `normalize` never
reads it. -/
structure RawData where
  title : Option String
  price : Option String
  url : Option String
  image : Option String
  rating : Option ℚ
  retailer : Option String
  deriving DecidableEq

/-- The numeric value of a list of decimal digit characters. -/
def digitsVal (l : List Char) : Nat :=
  l.foldl (fun a c => 10 * a + (c.toNat - 48)) 0

/-- Assemble a price from the digit prefix and the remainder of the cleaned
character list: `<digits>` or `<digits>.<digits>`, anything else is a parse
failure. -/
def assemblePrice (intPart rest : List Char) : Option ℚ :=
  if intPart = [] then none
  else
    match rest with
    | [] => some (digitsVal intPart : ℚ)
    | '.' :: fracPart =>
        if fracPart ≠ [] ∧ fracPart.all (fun c => c.isDigit) then
          some ((digitsVal intPart : ℚ) + (digitsVal fracPart : ℚ) / (10 : ℚ) ^ fracPart.length)
        else none
    | _ => none

/-- Modelled from the spec: `BaseScraper._parse_price` (not present in the
repository snapshot). Per the spec, the price is parsed by stripping currency
symbols and thousands separators and converting the remaining
`<digits>` or `<digits>.<digits>` text to a decimal, with `null` on parse
failure; the function is total and never raises. -/
def parsePriceStr (s : String) : Option ℚ :=
  assemblePrice
    ((s.toList.filter fun c => c.isDigit || c == '.').takeWhile fun c => c.isDigit)
    ((s.toList.filter fun c => c.isDigit || c == '.').dropWhile fun c => c.isDigit)

/-- Price parsing lifted to an optional raw field: a missing price normalizes
to null. -/
def parsePrice (s : Option String) : Option ℚ :=
  match s with
  | none => none
  | some s => parsePriceStr s

/-- The canonical product produced by `BaseScraper.normalize`. -/
structure NormalizedProduct where
  title : Option String
  price : Option ℚ
  url : Option String
  retailer : String
  imageUrl : Option String
  rating : Option ℚ
  deriving DecidableEq

/-- `BaseScraper.normalize` from the scraper-engine README (`base.py`): copy
`title`, `url`, `image` and `rating` from the raw record, parse the price,
and set `retailer` to the retailer name of the strategy itself — the raw
payload is never consulted for the retailer. -/
def BaseScraper.normalize (retailer_name : String) (raw_data : RawData) : NormalizedProduct :=
  { title := raw_data.title
    price := parsePrice raw_data.price
    url := raw_data.url
    retailer := retailer_name
    imageUrl := raw_data.image
    rating := raw_data.rating }

/-! ## The job processor, the sink, startup and the product read path -/

/-- A job payload as decoded from the queue by the worker: the two fields the
validation reads with `payload.get(..., "")`. -/
structure JobPayloadDict where
  query : Option String
  retailer : Option String
  deriving DecidableEq

/-- Python `str.strip()` as used by the payload validation: drop whitespace
from both ends of the string. -/
def pyStrip (s : String) : String :=
  String.mk (((s.toList.dropWhile Char.isWhitespace).reverse.dropWhile
    Char.isWhitespace).reverse)

/-- The observable effects of processing one job: whether it was dropped,
whether a warning was logged, whether the registry was consulted and whether
the sink was called. -/
structure ProcessTrace where
  dropped : Bool
  warned : Bool
  registryConsulted : Bool
  sinkCalled : Bool
  deriving DecidableEq

/-- Modelled from the spec: the payload-validation and orchestration steps of
the Job Processor (`worker.py` is not in the repository snapshot; the README
of the scraper engine gives the validation code: both fields are read with a
default of the empty string, trimmed, and an empty result logs a warning and
returns before the registry or the sink is touched). -/
def processJob (payload : JobPayloadDict) : ProcessTrace :=
  let query := pyStrip (payload.query.getD "")
  let retailer := pyStrip (payload.retailer.getD "")
  if query = "" then
    { dropped := true, warned := true, registryConsulted := false, sinkCalled := false }
  else if retailer = "" then
    { dropped := true, warned := true, registryConsulted := false, sinkCalled := false }
  else
    match get_strategy retailer with
    | Except.error _ =>
        { dropped := true, warned := true, registryConsulted := true, sinkCalled := false }
    | Except.ok _ =>
        { dropped := false, warned := false, registryConsulted := true, sinkCalled := true }

/-- Modelled from the spec: the Repository Sink `save` — a batched write that
appends the normalized batch to the stored collection; canonical products are
never mutated after creation, a later scrape adds new records rather than
editing old ones. -/
def saveProducts (store batch : List NormalizedProduct) : List NormalizedProduct :=
  store ++ batch

/-- `connectDB` from `src/unnamed/part_005` (`config/db.ts`): a failed
initial store connection calls `process.exit(1)`; on success no exit
happens. The result is the exit code, if any. -/
def connectDBExits (connectOk : Bool) : Option Nat :=
  if connectOk then none else some 1

/-- The observable result of the API bootstrap: the exit code if the process
exited, whether the HTTP server ended up listening, and whether the redis
error-event handler logged a connection error. -/
structure BootstrapResult where
  exited : Option Nat
  listening : Bool
  redisErrorLogged : Bool
  deriving DecidableEq

/-- `bootstrap` from `src/api/src/index.ts` together with `getRedis` from
`src/api/src/lib/redis.ts`: first connect to the store — `connectDB` exits
the process with status 1 on failure, before the server listens — then warm
the queue connection. `getRedis` only constructs the ioredis client and
installs an error-event logger; a failed queue connection surfaces as a
logged error while the client retries in the background and never throws
into the trailing `.catch`, so the server starts listening regardless of the
queue connection. -/
def bootstrap (mongoOk redisOk : Bool) : BootstrapResult :=
  match connectDBExits mongoOk with
  | some code => { exited := some code, listening := false, redisErrorLogged := false }
  | none => { exited := none, listening := true, redisErrorLogged := !redisOk }

/-- What one iteration of the worker loop does with the result of a job. -/
structure WorkerStepResult where
  logLine : String
  exitsProcess : Bool
  deriving DecidableEq

/-- Modelled from the spec: the per-job error policy of the worker loop (the
README worker loop wraps each job in try/except — a success logs a count, a
failure logs the error — and in both cases the loop continues; the process
never exits on a per-job error). -/
def workerStep (query : String)
    (jobResult : Except String (List NormalizedProduct)) : WorkerStepResult :=
  match jobResult with
  | Except.ok products =>
      { logLine := "scraped " ++ toString products.length ++ " products for " ++ query
        exitsProcess := false }
  | Except.error e =>
      { logLine := "error scraping " ++ query ++ ": " ++ e
        exitsProcess := false }

/-- `findById` from `src/unnamed/part_006` (`product.service.ts`): the
mongoose lookup (which rejects with a cast error on a malformed id) is
wrapped in try/catch and any failure is converted to `null`. The lookup
outcome is passed in explicitly: `Except.error` is a thrown lookup error,
`Except.ok none` a miss, `Except.ok (some d)` a hit. -/
def findById (lookupOutcome : Except String (Option ProductDoc)) : Option ProductDoc :=
  match lookupOutcome with
  | Except.error _ => none
  | Except.ok p => p

/-- `getProductById` from `src/api/src/controllers/product.controller.ts`:
a `null` product answers 404 with the message text, otherwise the document is
returned with status 200. The catch branch (`next(err)`, a 500) is
unreachable because `findById` never throws. -/
def getProductById (lookupOutcome : Except String (Option ProductDoc)) : HttpResult :=
  match findById lookupOutcome with
  | none => { status := 404 }
  | some _ => { status := 200 }

/-! ## Claim theorems -/

/-- C1: the claim says every payload given to the lpush of the queue carries
the retailer of the accepted request. In the code, the accepted request with
query "iphone 15" and retailer "amazon" answers 202 and pushes exactly the
two-field payload of query and createdAt: `enqueueScrapeJob` accepts only the
query, so the payload has no retailer field at all. -/
theorem c1_enqueue_payload_lacks_retailer :
    handleScrape
        { query := some (JsonVal.str "iphone 15"),
          retailer := some (JsonVal.str "amazon") } "2026-02-13T10:30:00Z"
      = ({ status := 202 },
          [[("query", "iphone 15"), ("createdAt", "2026-02-13T10:30:00Z")]])
    ∧ (enqueueScrapeJobPayload "iphone 15" "2026-02-13T10:30:00Z").lookup "retailer"
      = none := by
  constructor
  · rfl
  · rfl

/-- C2: the claim says a canonical product with a null price can be persisted
without error and that the stored document carries retailer, rating and
scrapedAt fields. The mongoose ProductSchema declares price as required (so a
null price fails validation) and its field set has source instead of
retailer and no rating or scrapedAt field. -/
theorem c2_product_schema_rejects_canonical :
    validateProductDoc
        { title := some "Apple iPhone 15 Pro (128GB)", price := none,
          source := some "amazon", url := some "https://amazon.com/dp/B0",
          image := none, query := some "iphone 15" } = false
    ∧ productSchemaFields.contains "retailer" = false
    ∧ productSchemaFields.contains "rating" = false
    ∧ productSchemaFields.contains "scrapedAt" = false
    ∧ productSchemaFields.contains "source" = true
    ∧ productSchemaFields.contains "price" = true := by
  decide

/-- C6: the retailer field of the canonical product produced by normalize is
the retailer name of the strategy that produced it, for every raw record —
in particular regardless of any retailer-like value in the raw payload. -/
theorem c6_retailer_from_strategy (strat : Strategy) (raw_data : RawData) :
    (BaseScraper.normalize strat.retailer_name raw_data).retailer
      = strat.retailer_name :=
  rfl

/-- C8: persisting a second batch never mutates previously stored canonical
products: after a save, the first documents of the store are exactly the old
store, and the new batch sits after them. -/
theorem c8_save_leaves_old_documents_unchanged (store batch : List NormalizedProduct) :
    (saveProducts store batch).take store.length = store
    ∧ (saveProducts store batch).drop store.length = batch
    ∧ (saveProducts store batch).length = store.length + batch.length := by
  refine ⟨List.take_left store batch, List.drop_left store batch, ?_⟩
  simp [saveProducts]

/-- C9 counterexample: with the store reachable and the initial queue
connection failing, the process does not exit — the redis error is only
logged while the client retries, and the server starts listening (a partial
start) — refuting the claim that a failed initial queue connection makes the
process exit with a non-zero status. -/
theorem c9_queue_failure_partial_start :
    (bootstrap true false).exited = none
    ∧ (bootstrap true false).listening = true
    ∧ (bootstrap true false).redisErrorLogged = true :=
  ⟨rfl, rfl, rfl⟩

/-- C9 (amended): a failed initial store connection exits the process
immediately with status 1 and the server never listens (no partial start); a
failed initial queue connection does not exit the process — it is only
logged while the server starts listening — and a per-job error never makes
the worker process exit. -/
theorem c9_store_fatal_queue_logged (mongoOk redisOk : Bool) :
    (mongoOk = false →
      bootstrap mongoOk redisOk
        = { exited := some 1, listening := false, redisErrorLogged := false })
    ∧ (mongoOk = true →
        (bootstrap mongoOk redisOk).exited = none
        ∧ (bootstrap mongoOk redisOk).listening = true
        ∧ (bootstrap mongoOk redisOk).redisErrorLogged = !redisOk)
    ∧ ∀ (query : String) (jobResult : Except String (List NormalizedProduct)),
        (workerStep query jobResult).exitsProcess = false := by
  refine ⟨?_, ?_, ?_⟩
  · intro h; subst h; rfl
  · intro h; subst h; cases redisOk <;> exact ⟨rfl, rfl, rfl⟩
  · intro query jobResult; cases jobResult <;> rfl

/-- C9 witness: a failed store connection exits with status 1 before the
server listens, and an erroring job does not exit the worker. -/
theorem c9_store_fatal_queue_logged_witness :
    bootstrap false true
      = { exited := some 1, listening := false, redisErrorLogged := false }
    ∧ (workerStep "iphone 15"
        (Except.error "ScrapeFailure")).exitsProcess = false :=
  ⟨(c9_store_fatal_queue_logged false true).1 rfl,
    (c9_store_fatal_queue_logged false true).2.2 "iphone 15"
      (Except.error "ScrapeFailure")⟩

/-- C10: the product read path never surfaces an internal error: for every
lookup outcome the response of getProductById is 200 or 404 (never 500), and
a lookup that throws (for example the cast error of a malformed id) is
answered 404. -/
theorem c10_get_product_by_id_never_500 (lookupOutcome : Except String (Option ProductDoc)) :
    ((getProductById lookupOutcome).status = 200
      ∨ (getProductById lookupOutcome).status = 404)
    ∧ (∀ e, lookupOutcome = Except.error e
        → (getProductById lookupOutcome).status = 404) := by
  constructor
  · cases lookupOutcome with
    | error e => exact Or.inr rfl
    | ok p => cases p with
      | none => exact Or.inr rfl
      | some d => exact Or.inl rfl
  · intro e he
    subst he
    rfl

/-- C10 witness: a malformed id whose mongoose lookup throws a cast error is
answered 404, not 500. -/
theorem c10_get_product_by_id_never_500_witness :
    (getProductById (Except.error "CastError: Cast to ObjectId failed")).status = 404 :=
  (c10_get_product_by_id_never_500
    (Except.error "CastError: Cast to ObjectId failed")).2
    "CastError: Cast to ObjectId failed" rfl

/-- C3: resolving any retailer identifier absent from the fixed registry
fails with UnsupportedRetailer — never a fallback to a default strategy and
never all strategies, since the only non-error outcome of get_strategy for a
registered key is that single key's strategy — and the registered identifiers
resolve to their own strategies. -/
theorem c3_registry_resolution (r : String)
    (h1 : r ≠ "amazon") (h2 : r ≠ "flipkart") :
    get_strategy r = Except.error (RegistryError.UnsupportedRetailer r)
    ∧ get_strategy "amazon" = Except.ok Strategy.amazon
    ∧ get_strategy "flipkart" = Except.ok Strategy.flipkart := by
  refine ⟨?_, rfl, rfl⟩
  have e1 : (r == "amazon") = false := beq_eq_false_iff_ne.mpr h1
  have e2 : (r == "flipkart") = false := beq_eq_false_iff_ne.mpr h2
  simp [get_strategy, STRATEGY_REGISTRY, List.lookup, e1, e2]

/-- C3 witness: "ebay" is not registered and fails with UnsupportedRetailer,
while "amazon" resolves to the Amazon strategy. -/
theorem c3_registry_resolution_witness :
    get_strategy "ebay" = Except.error (RegistryError.UnsupportedRetailer "ebay")
    ∧ get_strategy "amazon" = Except.ok Strategy.amazon := by
  have h := c3_registry_resolution "ebay" (by decide) (by decide)
  exact ⟨h.1, h.2.1⟩

/-- C7: a job whose query or retailer is missing or empty after trimming is
dropped with a logged warning, the registry is never consulted and the sink
is never called. -/
theorem c7_invalid_payload_dropped (payload : JobPayloadDict)
    (h : pyStrip (payload.query.getD "") = "" ∨ pyStrip (payload.retailer.getD "") = "") :
    processJob payload
      = { dropped := true, warned := true,
          registryConsulted := false, sinkCalled := false } := by
  unfold processJob
  rcases h with h | h
  · simp [h]
  · by_cases hq : pyStrip (payload.query.getD "") = ""
    · simp [hq]
    · simp [hq, h]

/-- C7 witness: a job with no query field and a retailer of blanks is dropped
with a warning and touches neither the registry nor the sink. -/
theorem c7_invalid_payload_dropped_witness :
    processJob { query := none, retailer := some "amazon" }
      = { dropped := true, warned := true,
          registryConsulted := false, sinkCalled := false } :=
  c7_invalid_payload_dropped { query := none, retailer := some "amazon" }
    (Or.inl (by decide))

/-- C5: the scrape handler responds 202 and enqueues exactly one job if and
only if the body carries a query string of length 1 to 200 and a retailer
that is exactly "amazon" or "flipkart"; every other body gets the 400
validation-error response and pushes nothing onto the queue. -/
theorem c5_scrape_route_validation (body : ReqBody) (now : String) :
    (((handleScrape body now).1.status = 202 ∧ (handleScrape body now).2.length = 1)
      ↔ validScrapeBody body = true)
    ∧ (validScrapeBody body = false →
        (handleScrape body now).1.status = 400 ∧ (handleScrape body now).2 = []) := by
  rcases body with ⟨q, r⟩
  cases q with
  | none =>
      simp [handleScrape, scrapeSchemaParse, validScrapeBody, errorHandler]
  | some v =>
    cases v with
    | other =>
        simp [handleScrape, scrapeSchemaParse, validScrapeBody, errorHandler]
    | str qs =>
      cases r with
      | none =>
          simp [handleScrape, scrapeSchemaParse, validScrapeBody, errorHandler]
      | some w =>
        cases w with
        | other =>
            simp [handleScrape, scrapeSchemaParse, validScrapeBody, errorHandler]
        | str rs =>
          by_cases h1 : 1 ≤ qs.length
          · by_cases h2 : qs.length ≤ 200
            · by_cases h3 : rs = "amazon" ∨ rs = "flipkart"
              · simp [handleScrape, scrapeSchemaParse, validScrapeBody,
                  errorHandler, h1, h2, h3]
                tauto
              · simp [handleScrape, scrapeSchemaParse, validScrapeBody,
                  errorHandler, h1, h2, h3]
            · simp [handleScrape, scrapeSchemaParse, validScrapeBody,
                errorHandler, h1, h2]
          · simp [handleScrape, scrapeSchemaParse, validScrapeBody,
              errorHandler, h1]

/-- C5 witness: the body with query "iphone 15" and retailer "amazon" yields
202 with exactly one enqueued job; the body with retailer "ebay" yields 400
and enqueues nothing. -/
theorem c5_scrape_route_validation_witness :
    ((handleScrape
          { query := some (JsonVal.str "iphone 15"),
            retailer := some (JsonVal.str "amazon") }
          "2026-02-13T10:30:00Z").1.status = 202
      ∧ (handleScrape
          { query := some (JsonVal.str "iphone 15"),
            retailer := some (JsonVal.str "amazon") }
          "2026-02-13T10:30:00Z").2.length = 1)
    ∧ ((handleScrape
          { query := some (JsonVal.str "iphone 15"),
            retailer := some (JsonVal.str "ebay") }
          "2026-02-13T10:30:00Z").1.status = 400
      ∧ (handleScrape
          { query := some (JsonVal.str "iphone 15"),
            retailer := some (JsonVal.str "ebay") }
          "2026-02-13T10:30:00Z").2 = []) := by
  constructor
  · exact (c5_scrape_route_validation
      { query := some (JsonVal.str "iphone 15"),
        retailer := some (JsonVal.str "amazon") }
      "2026-02-13T10:30:00Z").1.mpr (by decide)
  · exact (c5_scrape_route_validation
      { query := some (JsonVal.str "iphone 15"),
        retailer := some (JsonVal.str "ebay") }
      "2026-02-13T10:30:00Z").2 (by decide)

/-! ## Helper lemmas for the price parser -/

theorem takeWhile_digits_dot (ds fs : List Char) (hds : ∀ c ∈ ds, c.isDigit = true) :
    (ds ++ '.' :: fs).takeWhile (fun c => c.isDigit) = ds := by
  induction ds with
  | nil => rfl
  | cons a tl ih =>
      have ha : a.isDigit = true := hds a (List.mem_cons_self a tl)
      simp only [List.cons_append, List.takeWhile_cons, ha, if_true]
      exact congrArg (a :: ·) (ih fun c hc => hds c (List.mem_cons_of_mem a hc))

theorem dropWhile_digits_dot (ds fs : List Char) (hds : ∀ c ∈ ds, c.isDigit = true) :
    (ds ++ '.' :: fs).dropWhile (fun c => c.isDigit) = '.' :: fs := by
  induction ds with
  | nil => rfl
  | cons a tl ih =>
      have ha : a.isDigit = true := hds a (List.mem_cons_self a tl)
      simp only [List.cons_append, List.dropWhile_cons, ha, if_true]
      exact ih fun c hc => hds c (List.mem_cons_of_mem a hc)

theorem takeWhile_isDigit_nil (l : List Char) (h : ∀ c ∈ l, c.isDigit = false) :
    l.takeWhile (fun c => c.isDigit) = [] := by
  cases l with
  | nil => rfl
  | cons a tl => simp [List.takeWhile_cons, h a (List.mem_cons_self a tl)]

theorem filter_price_chars (ds fs : List Char)
    (hdsd : ∀ c ∈ ds, c.isDigit = true) (hfsd : ∀ c ∈ fs, c.isDigit = true) :
    (ds ++ '.' :: fs).filter (fun c => c.isDigit || c == '.') = ds ++ '.' :: fs := by
  refine List.filter_eq_self.mpr ?_
  intro a ha
  rcases List.mem_append.mp ha with h | h
  · simp [hdsd a h]
  · rcases List.mem_cons.mp h with rfl | h
    · simp
    · simp [hfsd a h]

theorem parsePriceStr_currency (sym : Char) (ds fs : List Char)
    (hsym : sym.isDigit = false) (hdot : sym ≠ '.')
    (hds : ds ≠ []) (hdsd : ∀ c ∈ ds, c.isDigit = true)
    (hfs : fs ≠ []) (hfsd : ∀ c ∈ fs, c.isDigit = true) :
    parsePriceStr (String.mk (sym :: (ds ++ '.' :: fs)))
      = some ((digitsVal ds : ℚ) + (digitsVal fs : ℚ) / (10 : ℚ) ^ fs.length) := by
  have hpsym : (sym.isDigit || sym == '.') = false := by
    rw [hsym, beq_eq_false_iff_ne.mpr hdot]
    rfl
  have htl : (String.mk (sym :: (ds ++ '.' :: fs))).toList = sym :: (ds ++ '.' :: fs) := rfl
  have hfil : (sym :: (ds ++ '.' :: fs)).filter (fun c => c.isDigit || c == '.')
      = ds ++ '.' :: fs := by
    rw [List.filter_cons]
    simp only [hpsym, if_false]
    exact filter_price_chars ds fs hdsd hfsd
  unfold parsePriceStr
  rw [htl, hfil, takeWhile_digits_dot ds fs hdsd, dropWhile_digits_dot ds fs hdsd]
  unfold assemblePrice
  rw [if_neg hds]
  simp only [List.all_eq_true.mpr hfsd, hfs, ne_eq, not_false_iff, true_and, if_true]

theorem parsePriceStr_no_digits (s : String) (h : ∀ c ∈ s.toList, c.isDigit = false) :
    parsePriceStr s = none := by
  unfold parsePriceStr
  rw [takeWhile_isDigit_nil _ (fun c hc => h c (List.mem_of_mem_filter hc))]
  simp [assemblePrice]

/-- C4: for a raw record whose price field has the form
currency-symbol digits dot digits, normalize produces the numeric price
given by the digits read as a decimal, and for a raw record whose price
field contains no digit at all (unparsable), the normalized price is null;
in both cases normalize is a total function, so no error is raised. -/
theorem c4_price_normalization (name : String) (raw_data : RawData)
    (sym : Char) (ds fs : List Char)
    (hsym : sym.isDigit = false) (hdot : sym ≠ '.')
    (hds : ds ≠ []) (hdsd : ∀ c ∈ ds, c.isDigit = true)
    (hfs : fs ≠ []) (hfsd : ∀ c ∈ fs, c.isDigit = true) :
    (raw_data.price = some (String.mk (sym :: (ds ++ '.' :: fs))) →
      (BaseScraper.normalize name raw_data).price
        = some ((digitsVal ds : ℚ) + (digitsVal fs : ℚ) / (10 : ℚ) ^ fs.length))
    ∧ (∀ s : String, (∀ c ∈ s.toList, c.isDigit = false) →
        raw_data.price = some s →
        (BaseScraper.normalize name raw_data).price = none) := by
  constructor
  · intro hp
    show parsePrice raw_data.price = _
    rw [hp]
    exact parsePriceStr_currency sym ds fs hsym hdot hds hdsd hfs hfsd
  · intro s hs hp
    show parsePrice raw_data.price = none
    rw [hp]
    exact parsePriceStr_no_digits s hs

/-- C4 witness: the raw price "$999.00" normalizes to the numeric price 999,
and the raw price "Contact for price" normalizes to null. -/
theorem c4_price_normalization_witness :
    (BaseScraper.normalize "amazon"
        { title := none, price := some "$999.00", url := none, image := none,
          rating := none, retailer := none }).price = some (999 : ℚ)
    ∧ (BaseScraper.normalize "amazon"
        { title := none, price := some "Contact for price", url := none,
          image := none, rating := none, retailer := none }).price = none := by
  constructor
  · have h := (c4_price_normalization "amazon"
      { title := none, price := some "$999.00", url := none, image := none,
        rating := none, retailer := none }
      '$' ['9', '9', '9'] ['0', '0'] (by decide) (by decide) (by decide)
      (by decide) (by decide) (by decide)).1 (by decide)
    have d1 : digitsVal ['9', '9', '9'] = 999 := by decide
    have d2 : digitsVal ['0', '0'] = 0 := by decide
    rw [h, d1, d2]
    norm_num
  · exact (c4_price_normalization "amazon"
      { title := none, price := some "Contact for price", url := none,
        image := none, rating := none, retailer := none }
      '$' ['9', '9', '9'] ['0', '0'] (by decide) (by decide) (by decide)
      (by decide) (by decide) (by decide)).2 "Contact for price"
      (by decide) (by decide)
